import Mathlib

/-!
Verification development for the grblHAL motion-control core
(MSP432 driver `driver.c` and `limits.c`).

The C source is shallowly embedded:
* machine integers are `Nat`/`Int` with explicit wrapping (`u32`, `i32`,
  `u16sub`) where the C arithmetic wraps or casts;
* C `float` quantities are modelled as exact rationals (`ℚ`); the
  properties verified (clamping, equalities between closed-form
  expressions, control flow) are decided by comparisons and assignments,
  so they are insensitive to the rounding the model abstracts away;
* code that can fail (division by zero is undefined behaviour in C)
  returns `Option`;
* interrupt-driven reads of volatile globals (`sys_rt_exec_state`,
  `hal.limits_get_state()`) are supplied by an explicit trace of
  observations, one per loop iteration.
-/

/-- Wrap an integer to `uint32_t` (value in `[0, 2^32)`). -/
def u32 (x : Int) : Int := x % (2 ^ 32)

/-- Wrap an integer to `int32_t` (value in `[-2^31, 2^31)`), as produced by a
C cast to `int32_t` of a wider or unsigned value. -/
def i32 (x : Int) : Int := (x + 2 ^ 31) % (2 ^ 32) - 2 ^ 31

/-- Subtraction `a - b` modulo `2^16`: the pulse count between two
captures of the free-running 16-bit encoder counter (the physically
meaningful count when the counter wraps at most once).  NOTE: the C
driver does *not* compute its counter differences this way — it
subtracts the `int`-promoted `uint16_t` values, giving a possibly
negative result (see `CONTROL_IRQHandler_index` and `spindleGetData`). -/
def u16sub (a b : Nat) : Nat := (a + 2 ^ 16 - b % 2 ^ 16) % 2 ^ 16

/-- C truncation of a real quantity to an integer (`(int32_t)` cast of a
`float`): rounds toward zero. -/
def truncQ (q : ℚ) : Int := Int.tdiv q.num q.den

/-- C `lroundf`: round to nearest, halfway cases away from zero. -/
def lroundQ (q : ℚ) : Int := if 0 ≤ q then ⌊q + 1 / 2⌋ else ⌈q - 1 / 2⌉

/-! ## PID controller (`driver.c`, `pid`)

`pid_values_t` holds the persisted gain configuration, `pid_t` adds the
runtime fields.  `pid` is the compute function; it returns the correction
and the updated state (the C function mutates the struct in place). -/
structure pid_values_t where
  p_gain : ℚ
  i_gain : ℚ
  d_gain : ℚ
  i_max_error : ℚ
  d_max_error : ℚ
  max_error : ℚ
deriving DecidableEq, Repr

structure pid_t where
  cfg : pid_values_t
  deadband : ℚ
  i_error : ℚ
  d_error : ℚ
  sample_rate_prev : ℚ
  error : ℚ
  max_error : ℚ
  enabled : Bool
deriving DecidableEq, Repr

/-- The C clamp pattern appearing three times in `pid`:
`if (bound != 0.0f) { if (x > bound) x = bound; else if (x < -bound) x = -bound; }`. -/
def clampTo (x bound : ℚ) : ℚ :=
  if bound ≠ 0 then
    if x > bound then bound
    else if x < -bound then -bound
    else x
  else x

def pid (s : pid_t) (command actual sample_rate : ℚ) : ℚ × pid_t :=
  let error := command - actual
  -- proportional term
  let pidres := s.cfg.p_gain * error
  -- integral term, time-normalized, then clamped when the bound is non-zero
  let i_error := clampTo (s.i_error + error * (s.sample_rate_prev / sample_rate))
                         s.cfg.i_max_error
  let pidres := pidres + s.cfg.i_gain * i_error
  -- derivative term: skipped entirely (including the d_error update)
  -- when the derivative gain is zero
  let (pidres, d_error) :=
    if s.cfg.d_gain ≠ 0 then
      let p_error := clampTo ((error - s.d_error) * (sample_rate / s.sample_rate_prev))
                             s.cfg.d_max_error
      (pidres + s.cfg.d_gain * p_error, error)
    else (pidres, s.d_error)
  let sample_rate_prev := sample_rate
  -- limit output when the bound is non-zero
  let pidres := clampTo pidres s.cfg.max_error
  (pidres, { s with i_error := i_error, d_error := d_error,
                    sample_rate_prev := sample_rate_prev, error := pidres })

/-- Folding a sequence of `(command, actual, sample_rate)` calls through the
PID state. -/
def pidRun (s : pid_t) (inputs : List (ℚ × ℚ × ℚ)) : pid_t :=
  inputs.foldl (fun st i => (pid st i.1 i.2.1 i.2.2).2) s

/-! ## Spindle-synchronized pulse corrector
(`driver.c`, `stepperPulseStartSynchronized`, segment-boundary part)

The stepper engine invokes this once per pulse; the correction runs when
the segment id changes.  Only the state read/written by that block is
modelled; the step-pin output and the hardware timer reload
(`stepperCyclesPerTick`) are external effects.  The C code divides by
`(int32_t)stepper->step_count` with no zero guard; a zero divisor is
undefined behaviour, modelled as `none`. -/
/-- Wrap a natural to `uint32_t` range (C unsigned multiplication wraps). -/
def u32n (n : Nat) : Nat := n % 2 ^ 32

structure spindle_sync_t where
  block_start : ℚ        -- spindle position at start of move (revolutions·rate)
  prev_pos : ℚ           -- target position of previous segment
  steps_per_mm : ℚ
  programmed_rate : ℚ
  min_cycles_per_tick : Nat
  segment_id : Nat
  pid : pid_t
deriving DecidableEq, Repr

/-- Timer reload issued for the adjusted segment time
(`stepperCyclesPerTick`): the slowest speed is limited to `2^20 - 1`. -/
def stepperCyclesPerTick (cycles_per_tick : Nat) : Nat :=
  if cycles_per_tick < 2 ^ 20 then cycles_per_tick else 0x000FFFFF

/-- The computation `int32_t ticks = (((int32_t)step_count + step_delta) *
(int32_t)cycles_per_tick) / (int32_t)step_count` (C `int` arithmetic, wrapping). -/
def syncSegmentTicks (step_count cycles_per_tick : Nat) (step_delta : Int) : Int :=
  i32 (Int.tdiv
    (i32 (i32 (i32 (step_count : Int) + step_delta) * i32 (cycles_per_tick : Int)))
    (i32 (step_count : Int)))

/-- The store `(uint32_t)max(ticks, (int32_t)min_cycles_per_tick)`: the adjusted
segment `cycles_per_tick`. -/
def syncNewCyclesPerTick (step_count cycles_per_tick : Nat) (step_delta : Int)
    (min_cycles_per_tick : Nat) : Nat :=
  (u32 (max (syncSegmentTicks step_count cycles_per_tick step_delta)
            (i32 (min_cycles_per_tick : Int)))).toNat

/-- Segment-boundary block of `stepperPulseStartSynchronized`.
Returns `none` when the C code would divide by zero; otherwise the updated
tracker state, the updated `sync` static flag, and the new
`cycles_per_tick` when a correction was applied (cruising segment). -/
def stepperPulseStartSynchronized_segment
    (t : spindle_sync_t) (sync new_block cruising : Bool)
    (segment_id : Nat) (f_step_timer : Nat)
    (step_count cycles_per_tick n_step : Nat)
    (angular_position target_position : ℚ) :
    Option (spindle_sync_t × Bool × Option Nat) :=
  if t.segment_id = segment_id then some (t, sync, none)
  else
    let t := { t with segment_id := segment_id }
    if new_block then
      -- stepper->new_block = false; no correction on the first segment
      some ({ t with prev_pos := target_position }, sync, none)
    else if cruising then
      -- adjust this segment's total time for positional error
      let dt : ℚ := (f_step_timer : ℚ) / (u32n (cycles_per_tick * n_step) : ℚ)
      let actual_pos := angular_position * t.programmed_rate
      let pid0 := if sync then { t.pid with sample_rate_prev := dt } else t.pid
      let sync := if sync then false else sync
      let actual_pos := actual_pos - t.block_start
      let res := pid pid0 t.prev_pos actual_pos dt
      let step_delta : Int := i32 (truncQ (res.1 * t.steps_per_mm))
      if i32 (step_count : Int) = 0 then
        none  -- ((step_count + delta) * cycles_per_tick) / step_count : div by 0
      else
        some ({ t with pid := res.2, prev_pos := target_position }, sync,
              some (syncNewCyclesPerTick step_count cycles_per_tick step_delta
                      t.min_cycles_per_tick))
    else
      -- non-cruising segments are not corrected (actual_pos := prev_pos is local)
      some ({ t with prev_pos := target_position }, sync, none)

/-! ## Spindle encoder tracker (`driver.c`) -/
structure spindle_encoder_t where
  ppr : Nat                    -- encoder pulses per revolution
  rpm_factor : ℚ
  pulse_distance : ℚ           -- fraction of one revolution per pulse
  timer_resolution : ℚ         -- seconds per tick
  rpm : ℚ                      -- last RPM (spindle PID estimate)
  timer_value_index : Nat      -- timer value at last index pulse
  timer_value_last : Nat       -- timer value at last encoder pulse
  tpp : Nat                    -- last timer tics per encoder pulse
  maximum_tt : Nat             -- max tics since last pulse before RPM = 0
  pulse_counter_trigger : Nat
  pulse_counter_last : Nat     -- uint16_t
  pulse_counter_index : Nat    -- uint16_t
  error : Bool                 -- pulse count mismatch at last index
deriving DecidableEq, Repr

structure spindle_data_t where
  rpm : ℚ
  rpm_low_limit : ℚ
  rpm_high_limit : ℚ
  rpm_programmed : ℚ
  pulse_count : Nat
  index_count : Nat
  angular_position : ℚ
deriving DecidableEq, Repr

inductive spindle_data_request_t where
  | SpindleData_Counters
  | SpindleData_RPM
  | SpindleData_AngularPosition
deriving DecidableEq, Repr

def spindle_calc_rpm (enc : spindle_encoder_t) (tpp : Nat) : ℚ :=
  enc.rpm_factor / (tpp : ℚ)

/-- Query entry point `spindleGetData`: `rpm_timer_value` is the current free-running
(down-counting) `RPM_TIMER->VALUE`, `rpm_counter` the current
`RPM_COUNTER->R` (uint16).  `pid_enabled` is
`spindle_control.pid.enabled` (closed-loop spindle RPM control). -/
def spindleGetData (pid_enabled : Bool)
    (enc : spindle_encoder_t) (d : spindle_data_t)
    (request : spindle_data_request_t)
    (rpm_timer_value rpm_counter : Nat) : spindle_data_t :=
  -- NOTE: timer is counting down!  uint32 wrap-around subtraction.
  let rpm_timer_delta := (u32 ((enc.timer_value_last : Int) - (rpm_timer_value : Int))).toNat
  -- if no (4) spindle pulses during last 250 ms assume RPM is 0
  let stopped := enc.tpp = 0 || rpm_timer_delta > enc.maximum_tt
  let d := if stopped then { d with rpm := 0 } else d
  -- (RPM_COUNTER->R - pulse_counter_last): int-promoted uint16 difference,
  -- possibly negative, converted back to uint32 for the multiply by tpp
  let rpm_timer_delta :=
    if stopped then
      (u32 (((rpm_counter : Int) - (enc.pulse_counter_last : Int)) * (enc.tpp : Int))).toNat
    else rpm_timer_delta
  match request with
  | .SpindleData_Counters =>
      -- pulse_count += (int-promoted difference), wrapping as uint32
      { d with pulse_count :=
          (u32 ((d.pulse_count : Int) +
            ((rpm_counter : Int) - (enc.pulse_counter_last : Int)))).toNat }
  | .SpindleData_RPM =>
      if stopped then d
      else { d with rpm := if pid_enabled then enc.rpm
                           else spindle_calc_rpm enc enc.tpp }
  | .SpindleData_AngularPosition =>
      -- (float)(pulse_counter_last - pulse_counter_index): the int-promoted
      -- uint16 difference is cast directly to float (it can be negative)
      { d with angular_position :=
          (d.index_count : ℚ) +
            (((enc.pulse_counter_last : Int) - (enc.pulse_counter_index : Int) : Int) +
              (if enc.tpp = 0 then 0 else (rpm_timer_delta : ℚ) / (enc.tpp : ℚ))) *
              enc.pulse_distance }

/-- Spindle index interrupt (`CONTROL_IRQHandler`, `RPM_INDEX_BIT` branch):
`(RPM_COUNTER->R - spindle_encoder.pulse_counter_index) != spindle_encoder.ppr`.
Both counter values are `uint16_t`, so the subtraction happens on the
`int`-promoted values and the (possibly negative) difference is then
converted to `uint32_t` for the comparison against the `uint32_t` ppr —
a conforming revolution that spans the 16-bit counter wrap therefore
compares as a huge value and sets `error`.  The conditional
`RPM_COUNTER->CCR[0]` reload on error is a hardware compare-register
write (external).  `rpm_timer_value` is `RPM_TIMER->VALUE`,
`rpm_counter` is `RPM_COUNTER->R`. -/
def CONTROL_IRQHandler_index (enc : spindle_encoder_t) (d : spindle_data_t)
    (rpm_timer_value rpm_counter : Nat) :
    spindle_encoder_t × spindle_data_t :=
  let enc := { enc with timer_value_index := rpm_timer_value }
  let err := (u32 ((rpm_counter : Int) - (enc.pulse_counter_index : Int))).toNat ≠ enc.ppr
  let enc := { enc with error := err, pulse_counter_index := rpm_counter % 2 ^ 16 }
  (enc, { d with index_count := u32n (d.index_count + 1) })

/-! ## Spindle RPM regulator (`driver.c`, `SysTick_Handler`, spindle part)

The 1 ms interrupt drives the closed-loop RPM state machine
`Disabled → Pending → Active`.  `pid_count` is the global settling
counter, `tpp`/`spid` are the handler's static accumulator and sample
countdown (`SPINDLE_PID_SAMPLE_RATE` is a driver constant, kept as the
parameter `sample_ticks`).  Reads of `spindle_encoder.tpp` and
`spindle_data.index_count` (owned by the capture interrupts) are inputs. -/
inductive pid_state_t where
  | PIDState_Disabled
  | PIDState_Pending
  | PIDState_Active
deriving DecidableEq, Repr

structure spindle_control_t where
  pid_state : pid_state_t
  pid : pid_t
deriving DecidableEq, Repr

structure systick_spindle_state_t where
  pid_count : Nat   -- global volatile settling counter
  tpp : Nat         -- static accumulated tics-per-pulse
  spid : Nat        -- static sample countdown
deriving DecidableEq, Repr

/-- One SysTick of the spindle-PID portion of `SysTick_Handler`.
Returns the updated control struct, the updated statics, and the new
`spindle_encoder.rpm` estimate (`rpm_programmed` feeds the `Active` PID
call; the PWM compare-register write is an external effect). -/
def SysTick_Handler_spindle (sample_ticks : Nat)
    (ctl : spindle_control_t) (st : systick_spindle_state_t)
    (encoder_tpp index_count : Nat)
    (encoder_rpm rpm_factor rpm_programmed : ℚ) :
    spindle_control_t × systick_spindle_state_t × ℚ :=
  match ctl.pid_state with
  | .PIDState_Pending =>
      let (tpp0, spid0) := if st.pid_count = 0 then (0, sample_ticks) else (st.tpp, st.spid)
      let (pid_count', pid_state') :=
        if st.pid_count < 500 then (st.pid_count + 1, pid_state_t.PIDState_Pending)
        else (st.pid_count,
              if index_count > 2 then pid_state_t.PIDState_Active
              else pid_state_t.PIDState_Pending)
      let tpp1 := u32n (tpp0 + encoder_tpp)
      let spid1 := u32n (spid0 + (2 ^ 32 - 1))  -- --spid (uint32_t)
      if spid1 = 0 then
        ({ ctl with pid_state := pid_state' },
         ⟨pid_count', 0, sample_ticks⟩,
         rpm_factor / ((tpp1 / sample_ticks : Nat) : ℚ))
      else
        ({ ctl with pid_state := pid_state' }, ⟨pid_count', tpp1, spid1⟩, encoder_rpm)
  | .PIDState_Active =>
      let tpp1 := u32n (st.tpp + encoder_tpp)
      let spid1 := u32n (st.spid + (2 ^ 32 - 1))
      if spid1 = 0 then
        -- spindle_rpm_pid(tpp1 / sample_ticks)
        let rpm' := rpm_factor / ((tpp1 / sample_ticks : Nat) : ℚ)
        let res := pid ctl.pid rpm_programmed rpm' 1
        ({ ctl with pid := res.2 }, ⟨st.pid_count, 0, sample_ticks⟩, rpm')
      else
        (ctl, ⟨st.pid_count, tpp1, spid1⟩, encoder_rpm)
  | .PIDState_Disabled => (ctl, st, encoder_rpm)

/-! ## Homing cycle (`limits.c`)

`limits_homing_cycle` busy-waits on volatile state set by interrupts:
`hal.limits_get_state()` and `sys_rt_exec_state` are read once per
iteration of the inner polling loop, so the environment is an explicit
trace with one observation per iteration (`none` = trace exhausted).
Planner/stepper calls (`plan_buffer_line`, `st_prep_buffer`,
`st_wake_up`, `st_reset`, `mc_reset`, the debounce delay) are external
collaborators that do not touch the state modelled here.  The realtime
executor invoked after a failure handles the already-recorded alarm; it
does not change `sys.homed`. -/
inductive alarm_code_t where
  | HomingFailReset
  | HomingFailDoor
  | FailPulloff
  | HomingFailApproach
deriving DecidableEq, Repr

/-- Realtime-executor flag bits (`EXEC_*`); only masking and
distinctness of the three bits matter for this model. -/
def EXEC_CYCLE_COMPLETE : Nat := 4

def EXEC_RESET : Nat := 16

def EXEC_SAFETY_DOOR : Nat := 32

/-- The `AXES_BITMASK` for `N_AXIS = 3` (X|Y|Z). -/
def AXES_BITMASK : Nat := 7

structure homing_settings_t where
  locate_cycles : Nat
  seek_rate : ℚ
  feed_rate : ℚ
  pulloff : ℚ
  debounce_delay : Nat
  dir_mask : Nat
  force_set_origin : Bool
deriving DecidableEq, Repr

structure settings_t where
  homing : homing_settings_t
  max_travel : Fin 3 → ℚ     -- NOTE: stored as a negative value
  steps_per_mm : Fin 3 → ℚ
deriving DecidableEq

structure system_t where
  position : Fin 3 → Int              -- sys_position
  homed_mask : Nat                    -- sys.homed.mask
  homing_axis_lock : Nat              -- sys.homing_axis_lock.mask
  rt_exec_alarm : Option alarm_code_t -- sys_rt_exec_alarm
deriving DecidableEq

/-- One observation of the volatile inputs per polling iteration. -/
structure homing_obs_t where
  limit_state : Nat  -- hal.limits_get_state().value
  rt_exec : Nat      -- sys_rt_exec_state
deriving DecidableEq, Repr

/-- Set machine positions for homed limit switches; non-homed axes keep
their positions (`limits.c`, `limits_set_machine_positions`).  The C
loop writes each axis independently, so it is expressed pointwise. -/
def limits_set_machine_positions (set : settings_t) (cycleMask : Nat)
    (add_pulloff : Bool) (pos : Fin 3 → Int) : Fin 3 → Int :=
  let pulloff : ℚ := if add_pulloff then set.homing.pulloff else 0
  fun idx =>
    if cycleMask.testBit idx.val then
      if set.homing.force_set_origin then 0
      else if set.homing.dir_mask.testBit idx.val then
        lroundQ ((set.max_travel idx + pulloff) * set.steps_per_mm idx)
      else
        lroundQ (-pulloff * set.steps_per_mm idx)
    else pos idx

/-- Per-iteration lockout of cycle axes whose limit switch just changed
(inner approach loop; `step_pin[idx]` is `bit(idx)`). -/
def homingClearTriggered (axislock limit_state : Nat) : Nat :=
  (List.range 3).foldl
    (fun al idx =>
      if al &&& (1 <<< idx) ≠ 0 ∧ limit_state &&& (1 <<< idx) ≠ 0 then
        al ^^^ (1 <<< idx)  -- &= ~bit(idx): clears the (set) bit
      else al)
    axislock

/-- Accumulate `axislock.mask |= step_pin[idx]` over the active cycle axes. -/
def homingAxislock (cycleMask : Nat) : Nat :=
  (List.range 3).foldl
    (fun al idx => if cycleMask.testBit idx then al ||| (1 <<< idx) else al) 0

/-- The homing-failure checks of the exit block, in source order; each
`system_set_exec_alarm` overwrites `sys_rt_exec_alarm` (`prev`). -/
def homingAlarmUpdate (prev : Option alarm_code_t) (approach : Bool)
    (cycleMask rt_exec limit_state : Nat) : Option alarm_code_t :=
  -- Homing failure condition: Reset issued during cycle.
  let a := if rt_exec &&& EXEC_RESET ≠ 0 then some alarm_code_t.HomingFailReset else prev
  -- Homing failure condition: Safety door was opened.
  let a := if rt_exec &&& EXEC_SAFETY_DOOR ≠ 0 then some alarm_code_t.HomingFailDoor else a
  -- Homing failure condition: Limit switch still engaged after pull-off motion.
  let a := if approach = false ∧ limit_state &&& cycleMask ≠ 0 then
             some alarm_code_t.FailPulloff else a
  -- Homing failure condition: Limit switch not found during approach.
  let a := if approach = true ∧ rt_exec &&& EXEC_CYCLE_COMPLETE ≠ 0 then
             some alarm_code_t.HomingFailApproach else a
  a

inductive homing_pass_result_t where
  | fail (s : system_t)                          -- mc_reset(); return false
  | done (s : system_t) (rest : List homing_obs_t)  -- pass completed
deriving DecidableEq

/-- Inner polling do-while of one approach/locate/pull-off pass. -/
def limits_homing_inner (cycleMask : Nat) (approach : Bool) :
    Nat → system_t → List homing_obs_t → Option homing_pass_result_t
  | _, _, [] => none
  | axislock, s, o :: rest =>
      -- Check limit state. Lock out cycle axes when they change.
      let axislock := if approach then homingClearTriggered axislock o.limit_state
                      else axislock
      let s := if approach then { s with homing_axis_lock := axislock } else s
      -- st_prep_buffer(): external
      if o.rt_exec &&& (EXEC_SAFETY_DOOR ||| EXEC_RESET ||| EXEC_CYCLE_COMPLETE) ≠ 0 then
        match homingAlarmUpdate s.rt_exec_alarm approach cycleMask o.rt_exec o.limit_state with
        | some a => some (.fail { s with rt_exec_alarm := some a })
        | none => some (.done s rest)  -- clear EXEC_CYCLE_COMPLETE; break
      else if axislock &&& AXES_BITMASK ≠ 0 then
        limits_homing_inner cycleMask approach axislock s rest
      else some (.done s rest)

/-- Per-pass target for the planner (`system_convert_array_steps_to_mpos`
then the cycle-axis overwrite); consumed by `plan_buffer_line` only. -/
def homingPassTarget (set : settings_t) (cycleMask : Nat) (approach : Bool)
    (max_travel : ℚ) (pos : Fin 3 → Int) : Fin 3 → ℚ :=
  fun idx =>
    if cycleMask.testBit idx.val then
      if set.homing.dir_mask.testBit idx.val then
        (if approach then -max_travel else max_travel)
      else
        (if approach then max_travel else -max_travel)
    else (pos idx : ℚ) / set.steps_per_mm idx

/-- Pass initialization: zero `sys_position` for each active cycle axis
and latch the axis lock mask. -/
def homingPassInitState (cycleMask : Nat) (s : system_t) : system_t :=
  { s with
    position := fun idx => if cycleMask.testBit idx.val then 0 else s.position idx,
    homing_axis_lock := homingAxislock cycleMask }

/-- One approach/locate/pull-off pass: initialize, hand the motion to the
external planner/stepper, and poll until an exit condition. -/
def limits_homing_pass (set : settings_t) (cycleMask : Nat) (approach : Bool)
    (max_travel : ℚ) (s : system_t) (trace : List homing_obs_t) :
    Option homing_pass_result_t :=
  let _target := homingPassTarget set cycleMask approach max_travel s.position
  -- plan_buffer_line(target, ...); st_prep_buffer(); st_wake_up(): external
  limits_homing_inner cycleMask approach (homingAxislock cycleMask)
    (homingPassInitState cycleMask s) trace

/-- End of the cycle: commit machine positions and mark the cycle axes
homed (`limits_set_machine_positions(cycle, true)`;
`sys.homed.mask |= cycle.mask`). -/
def limits_homing_finalize (set : settings_t) (cycleMask : Nat) (s : system_t) :
    system_t :=
  { s with
    position := limits_set_machine_positions set cycleMask true s.position,
    homed_mask := s.homed_mask ||| cycleMask }

/-- Travel for the next pass: locate passes shorten the search to
`pulloff * HOMING_AXIS_LOCATE_SCALAR`, pull-off passes to `pulloff` (the
homing rate switches between `feed_rate` and `seek_rate` alongside; it
feeds the external planner only). -/
def homingNextTravel (set : settings_t) (approach' : Bool) : ℚ :=
  if approach' then set.homing.pulloff * 5 else set.homing.pulloff

/-- The outer do-while of `limits_homing_cycle` (`while (n_cycle-- > 0)`):
each call runs one pass; `n_cycle = 0` means this pass is the last. -/
def limits_homing_passes (set : settings_t) (cycleMask : Nat) :
    Nat → Bool → ℚ → system_t → List homing_obs_t → Option (Bool × system_t)
  | 0, approach, max_travel, s, trace =>
      match limits_homing_pass set cycleMask approach max_travel s trace with
      | none => none
      | some (.fail s') => some (false, s')
      | some (.done s' _) => some (true, limits_homing_finalize set cycleMask s')
  | m + 1, approach, max_travel, s, trace =>
      match limits_homing_pass set cycleMask approach max_travel s trace with
      | none => none
      | some (.fail s') => some (false, s')
      | some (.done s' rest) =>
          -- st_reset(); debounce delay; reverse direction, shorten travel
          limits_homing_passes set cycleMask m (!approach)
            (homingNextTravel set (!approach)) s' rest

/-- Entry point `limits_homing_cycle` (`limits.c`): `aborted` is the entry `ABORTED`
check; the trace supplies the volatile reads of the polling loop. -/
def limits_homing_cycle (set : settings_t) (aborted : Bool) (cycleMask : Nat)
    (s : system_t) (trace : List homing_obs_t) : Option (Bool × system_t) :=
  if aborted then some (false, s)  -- block if system reset has been issued
  else
    -- search distance: max over cycle axes of -1.5 * max_travel[idx]
    let max_travel := (List.finRange 3).foldl
      (fun mt idx =>
        if cycleMask.testBit idx.val then max mt (-(3 / 2 : ℚ) * set.max_travel idx)
        else mt) 0
    limits_homing_passes set cycleMask (2 * set.homing.locate_cycles + 1) true max_travel s trace

def demo_pid_cfg : pid_values_t := ⟨1, 1, 0, 1, 1, 1⟩

def demo_pid : pid_t := ⟨demo_pid_cfg, 0, 0, 0, 1, 0, 0, true⟩

def demo_pid_cfg_no_d : pid_values_t := ⟨1, 1, 0, 10, 10, 100⟩

def demo_pid_no_d : pid_t := ⟨demo_pid_cfg_no_d, 0, 0, 0, 1, 0, 0, true⟩

def demo_pid_cfg_with_d : pid_values_t := ⟨1, 1, 1, 10, 10, 100⟩

def demo_pid_with_d : pid_t := ⟨demo_pid_cfg_with_d, 0, 0, 0, 1, 0, 0, true⟩

def demo_tracker : spindle_sync_t := ⟨0, 0, 100, 1, 10, 0, demo_pid_no_d⟩

def demo_encoder : spindle_encoder_t :=
  ⟨60, 1000000, 1 / 60, 1 / 1000000, 0, 0, 500, 100, 1000000, 4, 0, 0, false⟩

/-- Same encoder just before the 16-bit pulse counter wraps: the last
index event was captured at counter value 65530. -/
def demo_encoder_wrap : spindle_encoder_t :=
  ⟨60, 1000000, 1 / 60, 1 / 1000000, 0, 0, 500, 100, 1000000, 4, 0, 65530, false⟩

def demo_spindle_data : spindle_data_t := ⟨0, 0, 0, 0, 0, 0, 0⟩

def demo_spindle_control : spindle_control_t := ⟨.PIDState_Pending, demo_pid_no_d⟩

def demo_settings : settings_t :=
  ⟨⟨0, 10, 1, 1, 5, 0, false⟩, fun _ => -200, fun _ => 1⟩

def demo_settings_origin : settings_t :=
  ⟨⟨0, 10, 1, 1, 5, 0, true⟩, fun _ => -200, fun _ => 1⟩

def demo_position : Fin 3 → Int := fun i => 100 + i.val

def demo_sys : system_t := ⟨fun _ => 100, 2, 0, none⟩

def demo_fail_state : system_t :=
  ⟨fun idx => if Nat.testBit 1 idx.val then 0 else 100, 2, 1,
   some alarm_code_t.HomingFailReset⟩

/-- The state the demo success run reaches: pass 1 (approach) locks out
the X axis after its switch triggers, pass 2 (pull-off) completes, and
the cycle finalizes. -/
def demo_success_state : system_t :=
  limits_homing_finalize demo_settings 1
    (homingPassInitState 1
      { homingPassInitState 1 demo_sys with
        homing_axis_lock := homingClearTriggered (homingAxislock 1) 1 })

/-! ## Supporting lemmas and claim theorems -/

theorem i32_lower (x : Int) : -2 ^ 31 ≤ i32 x := by
  have h := Int.emod_nonneg (x + 2 ^ 31) (by norm_num : (2 ^ 32 : Int) ≠ 0)
  unfold i32; omega

theorem i32_upper (x : Int) : i32 x < 2 ^ 31 := by
  have h := Int.emod_lt_of_pos (x + 2 ^ 31) (by norm_num : (0 : Int) < 2 ^ 32)
  unfold i32; omega

theorem i32_of_small {x : Int} (h0 : 0 ≤ x) (h1 : x < 2 ^ 31) : i32 x = x := by
  unfold i32
  rw [Int.emod_eq_of_lt (by omega) (by omega)]
  omega

theorem u32_of_small {x : Int} (h0 : 0 ≤ x) (h1 : x < 2 ^ 32) : u32 x = x := by
  unfold u32
  exact Int.emod_eq_of_lt h0 h1

theorem pid_cfg_const (s : pid_t) (c a r : ℚ) : (pid s c a r).2.cfg = s.cfg := by
  unfold pid
  repeat' split
  all_goals rfl

theorem pidRun_cfg (s : pid_t) (l : List (ℚ × ℚ × ℚ)) : (pidRun s l).cfg = s.cfg := by
  induction l generalizing s with
  | nil => rfl
  | cons x xs ih =>
      simpa [pidRun, pid_cfg_const] using ih (pid s x.1 x.2.1 x.2.2).2

theorem abs_clampTo_le (x : ℚ) {m : ℚ} (hm : 0 < m) : |clampTo x m| ≤ m := by
  unfold clampTo
  rw [if_pos (ne_of_gt hm)]
  split
  · rw [abs_le]; constructor <;> linarith
  · split
    · rw [abs_le]; constructor <;> linarith
    · rw [abs_le]; constructor <;> linarith

theorem pid_snd_i_error (s : pid_t) (c a r : ℚ) :
    (pid s c a r).2.i_error =
      clampTo (s.i_error + (c - a) * (s.sample_rate_prev / r)) s.cfg.i_max_error := by
  unfold pid
  split <;> rfl

theorem pid_i_error_clamped (s : pid_t) (c a r : ℚ)
    (hi : 0 < s.cfg.i_max_error) :
    |(pid s c a r).2.i_error| ≤ s.cfg.i_max_error := by
  rw [pid_snd_i_error]
  exact abs_clampTo_le _ hi

theorem pid_output_clamped (s : pid_t) (c a r : ℚ)
    (hm : 0 < s.cfg.max_error) :
    |(pid s c a r).1| ≤ s.cfg.max_error := by
  unfold pid
  split
  · exact abs_clampTo_le _ hm
  · exact abs_clampTo_le _ hm

theorem pid_snd_sample_rate_prev (s : pid_t) (c a r : ℚ) :
    (pid s c a r).2.sample_rate_prev = r := by
  unfold pid
  split <;> rfl

theorem pid_snd_d_error (s : pid_t) (c a r : ℚ) :
    (pid s c a r).2.d_error = if s.cfg.d_gain ≠ 0 then c - a else s.d_error := by
  unfold pid
  split <;> simp_all

/-! ## Claim theorems -/
/-- C3: for every sequence of calls to `pid`, after each call the stored
integral error is within the configured (positive) `i_max_error` bound
when that bound is non-zero, and the returned correction is within the
configured (positive) `max_error` bound when that bound is non-zero.
(The arbitrary prior sequence is `inputs`; the inspected call is the
last one.) -/
theorem pid_bounds_invariant (s : pid_t) (inputs : List (ℚ × ℚ × ℚ)) (c a r : ℚ) :
    (0 < s.cfg.i_max_error →
      |(pid (pidRun s inputs) c a r).2.i_error| ≤ s.cfg.i_max_error) ∧
    (0 < s.cfg.max_error →
      |(pid (pidRun s inputs) c a r).1| ≤ s.cfg.max_error) := by
  have hc := pidRun_cfg s inputs
  constructor
  · intro hi
    have := pid_i_error_clamped (pidRun s inputs) c a r (by rw [hc]; exact hi)
    rwa [hc] at this
  · intro hm
    have := pid_output_clamped (pidRun s inputs) c a r (by rw [hc]; exact hm)
    rwa [hc] at this

/-- Witness for C3 at a concrete state and input sequence. -/
theorem pid_bounds_invariant_witness :
    |(pid (pidRun demo_pid [(2, 0, 1)]) 5 0 1).2.i_error| ≤ 1 ∧
    |(pid (pidRun demo_pid [(2, 0, 1)]) 5 0 1).1| ≤ 1 :=
  ⟨(pid_bounds_invariant demo_pid [(2, 0, 1)] 5 0 1).1 (by norm_num [demo_pid, demo_pid_cfg]),
   (pid_bounds_invariant demo_pid [(2, 0, 1)] 5 0 1).2 (by norm_num [demo_pid, demo_pid_cfg])⟩

/-- C8 counterexample: with derivative gain zero, a call with error 1
leaves `d_error` (previous_error) at its old value 0: `previous_error`
is *not* updated on every call, contrary to the claim. -/
theorem pid_d_error_not_updated_counterexample :
    (pid demo_pid_no_d 1 0 1).2.d_error = 0 ∧ (0 : ℚ) ≠ 1 - 0 := by
  constructor
  · decide
  · norm_num

/-- C8 (amended): every call updates `previous_sample_rate` to the call's
sample rate; `previous_error` (`d_error`) is updated to the call's error
only when the derivative gain is non-zero, and is left unchanged
otherwise. -/
theorem pid_history_update (s : pid_t) (c a r : ℚ) :
    (pid s c a r).2.sample_rate_prev = r ∧
    (s.cfg.d_gain ≠ 0 → (pid s c a r).2.d_error = c - a) ∧
    (s.cfg.d_gain = 0 → (pid s c a r).2.d_error = s.d_error) := by
  refine ⟨pid_snd_sample_rate_prev s c a r, ?_, ?_⟩
  · intro h
    rw [pid_snd_d_error, if_pos h]
  · intro h
    rw [pid_snd_d_error, if_neg (by simp [h])]

/-- Witness for the amended C8 at concrete states with and without
derivative gain. -/
theorem pid_history_update_witness :
    (pid demo_pid_with_d 3 1 2).2.sample_rate_prev = 2 ∧
    (pid demo_pid_with_d 3 1 2).2.d_error = 3 - 1 ∧
    (pid demo_pid_no_d 3 1 2).2.d_error = demo_pid_no_d.d_error :=
  ⟨(pid_history_update demo_pid_with_d 3 1 2).1,
   (pid_history_update demo_pid_with_d 3 1 2).2.1 (by decide),
   (pid_history_update demo_pid_no_d 3 1 2).2.2 (by decide)⟩

/-- C1: the spec claims a zero `step_count` skips the correction and that
the adjusted `cycles_per_tick` computation never divides by a zero
`step_count`; the code has no such guard — at a cruising segment
boundary with `step_count = 0` it evaluates
`((step_count + step_delta) * cycles_per_tick) / step_count`, a division
by zero (undefined behaviour, modelled as `none`). -/
theorem sync_zero_step_count_divides :
    stepperPulseStartSynchronized_segment demo_tracker false false true 1 12000000
      0 5000 25 (1 / 2) 1 = none := by
  decide

theorem syncNewCyclesPerTick_ge (sc cpt : Nat) (d : Int) (m : Nat) (hm : m < 2 ^ 31) :
    m ≤ syncNewCyclesPerTick sc cpt d m := by
  unfold syncNewCyclesPerTick
  have hM0 : (0 : Int) ≤ (m : Int) := Int.ofNat_nonneg _
  have hM31 : (m : Int) < 2 ^ 31 := by exact_mod_cast hm
  rw [i32_of_small hM0 hM31]
  have hT1 : syncSegmentTicks sc cpt d < 2 ^ 31 := i32_upper _
  have hmax0 : (0 : Int) ≤ max (syncSegmentTicks sc cpt d) (m : Int) :=
    le_trans hM0 (le_max_right _ _)
  have hmax1 : max (syncSegmentTicks sc cpt d) (m : Int) < 2 ^ 32 := by
    rcases max_cases (syncSegmentTicks sc cpt d) ((m : Int)) with ⟨he, -⟩ | ⟨he, -⟩ <;>
      rw [he] <;> omega
  rw [u32_of_small hmax0 hmax1]
  have hle : (m : Int) ≤ max (syncSegmentTicks sc cpt d) (m : Int) := le_max_right _ _
  omega

/-- C2: whenever the cruising-segment corrector computes and applies a
new `cycles_per_tick` (result `some r`), that value is at least
`min_cycles_per_tick`, for any PID correction (any `step_delta`), given
the configured floor is in `int32_t` range. -/
theorem sync_cycles_per_tick_floor
    (t : spindle_sync_t) (sync new_block cruising : Bool)
    (segment_id f_step_timer step_count cycles_per_tick n_step : Nat)
    (ang target : ℚ) (r : Nat)
    (hmin : t.min_cycles_per_tick < 2 ^ 31)
    (h : (stepperPulseStartSynchronized_segment t sync new_block cruising segment_id
            f_step_timer step_count cycles_per_tick n_step ang target).bind
           (fun x => x.2.2) = some r) :
    t.min_cycles_per_tick ≤ r := by
  unfold stepperPulseStartSynchronized_segment at h
  split at h
  · simp at h
  · split at h
    · simp at h
    · split at h
      · -- cruising: split the `sync` conditional, then the zero-divisor test
        split at h <;> split at h <;>
          first
          | (simp only [Option.some_bind, Option.some.injEq] at h
             exact h ▸ syncNewCyclesPerTick_ge _ _ _ _ hmin)
          | simp at h
      · simp at h

theorem demo_tracker_eval :
    (stepperPulseStartSynchronized_segment demo_tracker false false true 1 12000000
        100 5000 25 (1 / 2) 1).bind (fun x => x.2.2) = some 2500 := by
  norm_num [stepperPulseStartSynchronized_segment, demo_tracker, demo_pid_no_d,
    demo_pid_cfg_no_d, pid, clampTo, truncQ, syncNewCyclesPerTick, syncSegmentTicks,
    u32n, u32, i32]
  decide

/-- Witness for C2 at a concrete cruising segment boundary. -/
theorem sync_cycles_per_tick_floor_witness :
    demo_tracker.min_cycles_per_tick < 2 ^ 31 ∧
    demo_tracker.min_cycles_per_tick ≤ 2500 :=
  ⟨by decide,
   sync_cycles_per_tick_floor demo_tracker false false true 1 12000000 100 5000 25
     (1 / 2) 1 2500 (by decide) demo_tracker_eval⟩

/-- C6: with the closed-loop spindle-RPM PID disabled and `rpm_factor` as
configured by `settings_changed` (`60 / (timer_resolution * ppr)`), an
RPM query reports `(60 / timer_resolution / ppr) / ticks_per_pulse` when
`ticks_per_pulse > 0` and the elapsed timer ticks since the last pulse
capture are within `maximum_tt`; it reports exactly 0 when
`ticks_per_pulse = 0` or the idle bound is exceeded, regardless of any
prior measured rate. -/
theorem spindleGetData_rpm_correct
    (enc : spindle_encoder_t) (d : spindle_data_t) (tv cr : Nat)
    (hfac : enc.rpm_factor = 60 / (enc.timer_resolution * (enc.ppr : ℚ))) :
    (0 < enc.tpp →
      (u32 ((enc.timer_value_last : Int) - (tv : Int))).toNat ≤ enc.maximum_tt →
      (spindleGetData false enc d .SpindleData_RPM tv cr).rpm
        = 60 / enc.timer_resolution / (enc.ppr : ℚ) / (enc.tpp : ℚ)) ∧
    (∀ b : Bool,
      (enc.tpp = 0 ∨ enc.maximum_tt < (u32 ((enc.timer_value_last : Int) - (tv : Int))).toNat) →
      (spindleGetData b enc d .SpindleData_RPM tv cr).rpm = 0) := by
  constructor
  · intro h1 h2
    have hz : ¬enc.tpp = 0 := Nat.pos_iff_ne_zero.mp h1
    have hd : ¬enc.maximum_tt < (u32 ((enc.timer_value_last : Int) - (tv : Int))).toNat :=
      not_lt.mpr h2
    simp [spindleGetData, spindle_calc_rpm, hz, hd, hfac, div_div]
  · intro b hst
    rcases hst with h | h
    · simp [spindleGetData, h]
    · simp [spindleGetData, h]

/-- Witness for C6: a live query (delta 100 within bound) and an idle
query (delta `2^32 - 100` beyond bound). -/
theorem spindleGetData_rpm_correct_witness :
    (spindleGetData false demo_encoder demo_spindle_data .SpindleData_RPM 400 0).rpm
      = 60 / demo_encoder.timer_resolution / (demo_encoder.ppr : ℚ) / (demo_encoder.tpp : ℚ) ∧
    (spindleGetData true demo_encoder demo_spindle_data .SpindleData_RPM 600 0).rpm = 0 :=
  ⟨(spindleGetData_rpm_correct demo_encoder demo_spindle_data 400 0
      (by norm_num [demo_encoder])).1 (by decide) (by decide),
   (spindleGetData_rpm_correct demo_encoder demo_spindle_data 600 0
      (by norm_num [demo_encoder])).2 true (Or.inr (by decide))⟩

/-- C7 (amended): each index event re-assigns the encoder error flag —
it becomes true exactly when the int-promoted counter difference since
the previous index event, converted to `uint32_t`, differs from the
configured ppr.  In particular every offending index event (pulse count
modulo `2^16` since the last index ≠ ppr, for in-range 16-bit counter
values and a realistic ppr) sets the flag; a conforming revolution that
spans the 16-bit counter wrap *also* sets it, while a conforming
non-wrapping event clears it.  `index_count` is incremented.  The flag
is recorded in the encoder state only: the data returned by RPM /
angular position / counter queries is independent of it (the fault is
not surfaced to the caller there). -/
theorem spindle_encoder_error_flag
    (enc : spindle_encoder_t) (d : spindle_data_t) (tv cr : Nat) :
    ((CONTROL_IRQHandler_index enc d tv cr).1.error = true ↔
        (u32 ((cr : Int) - (enc.pulse_counter_index : Int))).toNat ≠ enc.ppr) ∧
    (cr < 2 ^ 16 → enc.pulse_counter_index < 2 ^ 16 → enc.ppr < 2 ^ 16 →
        u16sub cr enc.pulse_counter_index ≠ enc.ppr →
        (CONTROL_IRQHandler_index enc d tv cr).1.error = true) ∧
    (CONTROL_IRQHandler_index enc d tv cr).2.index_count = u32n (d.index_count + 1) ∧
    (∀ (b : Bool) (req : spindle_data_request_t) (e₁ e₂ : Bool) (tv' cr' : Nat),
        spindleGetData b { enc with error := e₁ } d req tv' cr'
          = spindleGetData b { enc with error := e₂ } d req tv' cr') := by
  have hiff : (CONTROL_IRQHandler_index enc d tv cr).1.error = true ↔
      (u32 ((cr : Int) - (enc.pulse_counter_index : Int))).toNat ≠ enc.ppr := by
    simp [CONTROL_IRQHandler_index]
  refine ⟨hiff, ?_, ?_, ?_⟩
  · intro hc hp hppr hne
    rw [hiff]
    unfold u16sub at hne
    unfold u32
    omega
  · simp [CONTROL_IRQHandler_index]
  · intro b req e₁ e₂ tv' cr'
    cases req <;> simp [spindleGetData, spindle_calc_rpm]

/-- C7 counterexample: after an offending index event (5 pulses seen,
ppr = 60) the error flag is true, yet every RPM/position/counter query
returns exactly what it would return with the flag clear — the fault is
not surfaced on the next query, contrary to the claim. -/
theorem spindle_encoder_error_not_surfaced_counterexample :
    (CONTROL_IRQHandler_index demo_encoder demo_spindle_data 0 5).1.error = true ∧
    spindleGetData false ((CONTROL_IRQHandler_index demo_encoder demo_spindle_data 0 5).1)
        demo_spindle_data .SpindleData_RPM 400 5
      = spindleGetData false
          { (CONTROL_IRQHandler_index demo_encoder demo_spindle_data 0 5).1 with error := false }
          demo_spindle_data .SpindleData_RPM 400 5 ∧
    spindleGetData false ((CONTROL_IRQHandler_index demo_encoder demo_spindle_data 0 5).1)
        demo_spindle_data .SpindleData_AngularPosition 400 5
      = spindleGetData false
          { (CONTROL_IRQHandler_index demo_encoder demo_spindle_data 0 5).1 with error := false }
          demo_spindle_data .SpindleData_AngularPosition 400 5 ∧
    spindleGetData false ((CONTROL_IRQHandler_index demo_encoder demo_spindle_data 0 5).1)
        demo_spindle_data .SpindleData_Counters 400 5
      = spindleGetData false
          { (CONTROL_IRQHandler_index demo_encoder demo_spindle_data 0 5).1 with error := false }
          demo_spindle_data .SpindleData_Counters 400 5 := by
  refine ⟨by decide, ?_, ?_, ?_⟩ <;> simp [spindleGetData, spindle_calc_rpm]

/-- Witness for the amended C7: an offending index event (5 pulses seen,
ppr = 60) sets the flag; a conforming revolution across the 16-bit
counter wrap (last index at 65530, now 54, 60 pulses in between) also
sets it; and `index_count` increments. -/
theorem spindle_encoder_error_flag_witness :
    ((CONTROL_IRQHandler_index demo_encoder demo_spindle_data 0 5).1.error = true ↔
        (u32 ((5 : Int) - (demo_encoder.pulse_counter_index : Int))).toNat
          ≠ demo_encoder.ppr) ∧
    (CONTROL_IRQHandler_index demo_encoder demo_spindle_data 0 5).1.error = true ∧
    u16sub 54 demo_encoder_wrap.pulse_counter_index = demo_encoder_wrap.ppr ∧
    (CONTROL_IRQHandler_index demo_encoder_wrap demo_spindle_data 0 54).1.error = true ∧
    (CONTROL_IRQHandler_index demo_encoder demo_spindle_data 0 5).2.index_count
      = u32n (demo_spindle_data.index_count + 1) :=
  ⟨(spindle_encoder_error_flag demo_encoder demo_spindle_data 0 5).1,
   (spindle_encoder_error_flag demo_encoder demo_spindle_data 0 5).2.1
     (by decide) (by decide) (by decide) (by decide),
   by decide,
   (spindle_encoder_error_flag demo_encoder_wrap demo_spindle_data 0 54).1.mpr (by decide),
   (spindle_encoder_error_flag demo_encoder demo_spindle_data 0 5).2.2.1⟩

/-- C9 counterexample: 3 or more index events have been seen (here 5),
yet a control tick taken before the settling window has elapsed
(`pid_count = 0 < 500`) leaves the regulator in `Pending` — the
transition needs the window *and* the index events, not either. -/
theorem systick_pending_counterexample :
    2 < 5 ∧
    (SysTick_Handler_spindle 2 demo_spindle_control ⟨0, 0, 2⟩ 0 5 0 0 0).1.pid_state
      = .PIDState_Pending := by
  constructor
  · decide
  · decide

/-- C9 (amended): in `Pending`, a control tick transitions the regulator
to `Active` exactly when the fixed settling window has elapsed
(`pid_count ≥ 500`) *and* more than 2 index events have been seen; once
both conditions hold the very next tick activates it. -/
theorem systick_pending_to_active
    (sample_ticks : Nat) (ctl : spindle_control_t) (st : systick_spindle_state_t)
    (encoder_tpp index_count : Nat) (encoder_rpm rpm_factor rpm_programmed : ℚ)
    (hp : ctl.pid_state = .PIDState_Pending)
    (hc : 500 ≤ st.pid_count) (hi : 2 < index_count) :
    (SysTick_Handler_spindle sample_ticks ctl st encoder_tpp index_count
        encoder_rpm rpm_factor rpm_programmed).1.pid_state = .PIDState_Active := by
  obtain ⟨ps, p⟩ := ctl
  simp only at hp
  subst hp
  have h0 : ¬(st.pid_count = 0) := by omega
  have h5 : ¬(st.pid_count < 500) := by omega
  unfold SysTick_Handler_spindle
  simp only [h0, h5, hi, if_false, if_true, ite_false, ite_true]
  split <;> simp [hi]

/-- Witness for the amended C9: window elapsed (`pid_count = 500`) and 3
index events seen; the next tick activates the regulator. -/
theorem systick_pending_to_active_witness :
    (SysTick_Handler_spindle 2 demo_spindle_control ⟨500, 0, 2⟩ 0 3 0 0 0).1.pid_state
      = .PIDState_Active :=
  systick_pending_to_active 2 demo_spindle_control ⟨500, 0, 2⟩ 0 3 0 0 0
    (by decide) (by decide) (by decide)

/-- C10: `limits_set_machine_positions` only modifies axes whose bit is
set in the cycle mask; every other axis keeps its previous position, in
any configuration (`force_set_origin` or not, with or without
pull-off). -/
theorem limits_set_machine_positions_frame
    (set : settings_t) (cycleMask : Nat) (add_pulloff : Bool)
    (pos : Fin 3 → Int) (idx : Fin 3)
    (hmask : cycleMask.testBit idx.val = false) :
    limits_set_machine_positions set cycleMask add_pulloff pos idx = pos idx := by
  unfold limits_set_machine_positions
  simp [hmask]

/-- Witness for C10: homing only the X axis (mask 1) leaves the Y axis
position untouched, in both the normal and the force-set-origin
configuration. -/
theorem limits_set_machine_positions_frame_witness :
    Nat.testBit 1 1 = false ∧
    limits_set_machine_positions demo_settings 1 true demo_position 1 = demo_position 1 ∧
    limits_set_machine_positions demo_settings_origin 1 true demo_position 1
      = demo_position 1 :=
  ⟨by decide,
   limits_set_machine_positions_frame demo_settings 1 true demo_position 1 (by decide),
   limits_set_machine_positions_frame demo_settings_origin 1 true demo_position 1 (by decide)⟩

theorem limits_homing_inner_fail (cm : Nat) (ap : Bool) (tr : List homing_obs_t) :
    ∀ (al : Nat) (s s' : system_t),
      limits_homing_inner cm ap al s tr = some (.fail s') →
      s'.homed_mask = s.homed_mask ∧ s'.position = s.position ∧
        s'.rt_exec_alarm.isSome := by
  induction tr with
  | nil =>
      intro al s s' h
      simp [limits_homing_inner] at h
  | cons o rest ih =>
      intro al s s' h
      rw [limits_homing_inner] at h
      split at h
      · -- exit-condition block: alarm evaluated
        split at h
        · simp only [Option.some.injEq, homing_pass_result_t.fail.injEq] at h
          subst h
          refine ⟨?_, ?_, by simp⟩ <;>
            simp [apply_ite system_t.homed_mask, apply_ite system_t.position]
        · simp at h
      · -- keep polling: split on `approach`, then on the loop condition
        split at h <;> split at h <;>
          first
          | (simp at h; done)
          | (rcases ih _ _ _ h with ⟨h1, h2, h3⟩
             exact ⟨by simp [h1], by simp [h2], h3⟩)

theorem limits_homing_inner_done (cm : Nat) (ap : Bool) (tr : List homing_obs_t) :
    ∀ (al : Nat) (s s' : system_t) (rest : List homing_obs_t),
      limits_homing_inner cm ap al s tr = some (.done s' rest) →
      s'.homed_mask = s.homed_mask := by
  induction tr with
  | nil =>
      intro al s s' rest h
      simp [limits_homing_inner] at h
  | cons o tl ih =>
      intro al s s' rest h
      rw [limits_homing_inner] at h
      split at h
      · split at h
        · simp at h
        · simp only [Option.some.injEq, homing_pass_result_t.done.injEq] at h
          obtain ⟨h1, -⟩ := h
          subst h1
          simp [apply_ite system_t.homed_mask]
      · split at h <;> split at h <;>
          first
          | (have h1 := ih _ _ _ _ h
             simp [h1])
          | (simp only [Option.some.injEq, homing_pass_result_t.done.injEq] at h
             obtain ⟨h1, -⟩ := h
             subst h1
             simp)

theorem limits_homing_pass_fail (set : settings_t) (cm : Nat) (ap : Bool) (mt : ℚ)
    (s : system_t) (tr : List homing_obs_t) (s' : system_t)
    (h : limits_homing_pass set cm ap mt s tr = some (.fail s')) :
    s'.homed_mask = s.homed_mask ∧ s'.rt_exec_alarm.isSome := by
  unfold limits_homing_pass at h
  rcases limits_homing_inner_fail _ _ _ _ _ _ h with ⟨h1, -, h3⟩
  exact ⟨by simp [homingPassInitState] at h1; exact h1, h3⟩

theorem limits_homing_pass_done (set : settings_t) (cm : Nat) (ap : Bool) (mt : ℚ)
    (s : system_t) (tr : List homing_obs_t) (s' : system_t) (rest : List homing_obs_t)
    (h : limits_homing_pass set cm ap mt s tr = some (.done s' rest)) :
    s'.homed_mask = s.homed_mask := by
  unfold limits_homing_pass at h
  have h1 := limits_homing_inner_done _ _ _ _ _ _ _ h
  simpa [homingPassInitState] using h1

theorem limits_homing_passes_false (set : settings_t) (cm : Nat) :
    ∀ (n : Nat) (ap : Bool) (mt : ℚ) (s s' : system_t) (tr : List homing_obs_t),
      limits_homing_passes set cm n ap mt s tr = some (false, s') →
      s'.homed_mask = s.homed_mask ∧ s'.rt_exec_alarm.isSome := by
  intro n
  induction n with
  | zero =>
      intro ap mt s s' tr h
      rw [limits_homing_passes] at h
      cases hp : limits_homing_pass set cm ap mt s tr with
      | none => rw [hp] at h; simp at h
      | some res =>
          rw [hp] at h
          cases res with
          | fail sf =>
              simp only [Option.some.injEq, Prod.mk.injEq] at h
              obtain ⟨-, h2⟩ := h
              subst h2
              exact limits_homing_pass_fail _ _ _ _ _ _ _ hp
          | done sd rest => simp at h
  | succ m ih =>
      intro ap mt s s' tr h
      rw [limits_homing_passes] at h
      cases hp : limits_homing_pass set cm ap mt s tr with
      | none => rw [hp] at h; simp at h
      | some res =>
          rw [hp] at h
          cases res with
          | fail sf =>
              simp only [Option.some.injEq, Prod.mk.injEq] at h
              obtain ⟨-, h2⟩ := h
              subst h2
              exact limits_homing_pass_fail _ _ _ _ _ _ _ hp
          | done sd rest =>
              simp only at h
              rcases ih _ _ _ _ _ h with ⟨h1, h3⟩
              have h2 := limits_homing_pass_done _ _ _ _ _ _ _ _ hp
              exact ⟨by rw [h1, h2], h3⟩

theorem limits_homing_passes_true (set : settings_t) (cm : Nat) :
    ∀ (n : Nat) (ap : Bool) (mt : ℚ) (s s' : system_t) (tr : List homing_obs_t),
      limits_homing_passes set cm n ap mt s tr = some (true, s') →
      ∃ s'' : system_t, s' = limits_homing_finalize set cm s'' := by
  intro n
  induction n with
  | zero =>
      intro ap mt s s' tr h
      rw [limits_homing_passes] at h
      cases hp : limits_homing_pass set cm ap mt s tr with
      | none => rw [hp] at h; simp at h
      | some res =>
          rw [hp] at h
          cases res with
          | fail sf => simp at h
          | done sd rest =>
              simp only [Option.some.injEq, Prod.mk.injEq] at h
              obtain ⟨-, h2⟩ := h
              exact ⟨sd, h2.symm⟩
  | succ m ih =>
      intro ap mt s s' tr h
      rw [limits_homing_passes] at h
      cases hp : limits_homing_pass set cm ap mt s tr with
      | none => rw [hp] at h; simp at h
      | some res =>
          rw [hp] at h
          cases res with
          | fail sf => simp at h
          | done sd rest =>
              simp only at h
              exact ih _ _ _ _ _ h

/-- C4: a homing cycle that fails — reset issued, safety door opened,
a limit still engaged after pull-off, or the approach completing without
a trigger — returns false with a distinct alarm recorded for each cause
(`HomingFailReset` / `HomingFailDoor` / `FailPulloff` /
`HomingFailApproach`), and leaves `sys.homed.mask` exactly as it was:
no axis in the requested group becomes homed. -/
theorem limits_homing_cycle_failure (set : settings_t) (cm : Nat)
    (s s' : system_t) (tr : List homing_obs_t) :
    (limits_homing_cycle set false cm s tr = some (false, s') →
        s'.homed_mask = s.homed_mask ∧ s'.rt_exec_alarm.isSome) ∧
    (∀ (ap : Bool) (cm' : Nat),
        homingAlarmUpdate none ap cm' EXEC_RESET 0
          = some alarm_code_t.HomingFailReset) ∧
    (∀ (ap : Bool) (cm' : Nat),
        homingAlarmUpdate none ap cm' EXEC_SAFETY_DOOR 0
          = some alarm_code_t.HomingFailDoor) ∧
    (∀ (cm' lim : Nat), lim &&& cm' ≠ 0 →
        homingAlarmUpdate none false cm' EXEC_CYCLE_COMPLETE lim
          = some alarm_code_t.FailPulloff) ∧
    (∀ cm' : Nat,
        homingAlarmUpdate none true cm' EXEC_CYCLE_COMPLETE 0
          = some alarm_code_t.HomingFailApproach) := by
  refine ⟨?_, ?_, ?_, ?_, ?_⟩
  · intro h
    unfold limits_homing_cycle at h
    simp only [Bool.false_eq_true, if_false] at h
    exact limits_homing_passes_false set cm _ _ _ _ _ _ h
  · intro ap cm'
    simp [homingAlarmUpdate, EXEC_RESET, EXEC_SAFETY_DOOR, EXEC_CYCLE_COMPLETE,
      (by decide : (16 : Nat) &&& 16 ≠ 0), (by decide : (16 : Nat) &&& 32 = 0),
      (by decide : (16 : Nat) &&& 4 = 0)]
  · intro ap cm'
    simp [homingAlarmUpdate, EXEC_RESET, EXEC_SAFETY_DOOR, EXEC_CYCLE_COMPLETE,
      (by decide : (32 : Nat) &&& 16 = 0), (by decide : (32 : Nat) &&& 32 ≠ 0),
      (by decide : (32 : Nat) &&& 4 = 0)]
  · intro cm' lim hlim
    simp [homingAlarmUpdate, EXEC_RESET, EXEC_SAFETY_DOOR, EXEC_CYCLE_COMPLETE, hlim,
      (by decide : (4 : Nat) &&& 16 = 0), (by decide : (4 : Nat) &&& 32 = 0)]
  · intro cm'
    simp [homingAlarmUpdate, EXEC_RESET, EXEC_SAFETY_DOOR, EXEC_CYCLE_COMPLETE,
      (by decide : (4 : Nat) &&& 16 = 0), (by decide : (4 : Nat) &&& 32 = 0),
      (by decide : (4 : Nat) &&& 4 ≠ 0)]

/-- Witness for C4: homing X (mask 1, Y already homed: mask 2) with a
reset flagged at the first poll fails, reports `HomingFailReset`, and
leaves the homed mask at 2. -/
theorem limits_homing_cycle_failure_witness :
    limits_homing_cycle demo_settings false 1 demo_sys [⟨0, 16⟩]
        = some (false, demo_fail_state) ∧
    (demo_fail_state.homed_mask = demo_sys.homed_mask ∧
      demo_fail_state.rt_exec_alarm.isSome) :=
  ⟨by decide,
   (limits_homing_cycle_failure demo_settings 1 demo_sys demo_fail_state [⟨0, 16⟩]).1
     (by decide)⟩

/-- C5 (amended): a homing cycle that succeeds marks every axis of the
requested group homed and commits its machine position to exactly 0 when
`force_set_origin` is configured, and otherwise to
`lroundf((max_travel + pulloff) * steps_per_mm)` when the axis's homing
direction bit is set and to `lroundf(-pulloff * steps_per_mm)` when it
is clear (the switch at the positive end of travel is the machine
origin side, so `max_travel` does not enter). -/
theorem limits_homing_cycle_success_commit
    (set : settings_t) (cm : Nat) (s s' : system_t) (tr : List homing_obs_t)
    (h : limits_homing_cycle set false cm s tr = some (true, s')) :
    ∀ idx : Fin 3, cm.testBit idx.val = true →
      (s'.position idx =
        (if set.homing.force_set_origin then 0
         else if set.homing.dir_mask.testBit idx.val then
           lroundQ ((set.max_travel idx + set.homing.pulloff) * set.steps_per_mm idx)
         else lroundQ (-set.homing.pulloff * set.steps_per_mm idx))) ∧
      s'.homed_mask.testBit idx.val = true := by
  unfold limits_homing_cycle at h
  simp only [Bool.false_eq_true, if_false] at h
  rcases limits_homing_passes_true set cm _ _ _ _ _ _ h with ⟨s'', rfl⟩
  intro idx hmask
  constructor
  · simp [limits_homing_finalize, limits_set_machine_positions, hmask]
  · simp [limits_homing_finalize, Nat.testBit_or, hmask]

/-- Witness for the amended C5: homing X succeeds (trigger on the first
poll, pull-off completes cleanly); X is committed per the formula and
marked homed. -/
theorem limits_homing_cycle_success_commit_witness :
    (demo_success_state.position 0 =
      (if demo_settings.homing.force_set_origin then 0
       else if demo_settings.homing.dir_mask.testBit 0 then
         lroundQ ((demo_settings.max_travel 0 + demo_settings.homing.pulloff)
           * demo_settings.steps_per_mm 0)
       else lroundQ (-demo_settings.homing.pulloff * demo_settings.steps_per_mm 0))) ∧
    demo_success_state.homed_mask.testBit 0 = true :=
  limits_homing_cycle_success_commit demo_settings 1 demo_sys demo_success_state
    [⟨1, 0⟩, ⟨0, 4⟩] (by rfl) 0 (by rfl)

/-- C5 counterexample: a successful homing cycle on the X axis (homing
direction bit clear, `force_set_origin` off, `max_travel = -200`,
`pulloff = 1`, 1 step/mm) commits X to -1 — which is neither
`max_travel + pulloff` (-199) nor `max_travel - pulloff` (-201) nor 0,
contrary to the claim. -/
theorem limits_homing_success_position_counterexample :
    (limits_homing_cycle demo_settings false 1 demo_sys [⟨1, 0⟩, ⟨0, 4⟩]).map
        (fun r => (r.1, r.2.position 0)) = some (true, -1) ∧
    (-1 : Int) ≠ lroundQ ((demo_settings.max_travel 0 + demo_settings.homing.pulloff)
        * demo_settings.steps_per_mm 0) ∧
    (-1 : Int) ≠ lroundQ ((demo_settings.max_travel 0 - demo_settings.homing.pulloff)
        * demo_settings.steps_per_mm 0) ∧
    (-1 : Int) ≠ 0 := by
  have hrun : limits_homing_cycle demo_settings false 1 demo_sys [⟨1, 0⟩, ⟨0, 4⟩]
      = some (true, demo_success_state) := rfl
  have hc1 : ⌈(-(3 / 2) : ℚ)⌉ = -1 := by
    (rw [Int.ceil_eq_iff]; norm_num)
  have hc2 : ⌈(-(399 / 2) : ℚ)⌉ = -199 := by
    (rw [Int.ceil_eq_iff]; norm_num)
  have hc3 : ⌈(-(403 / 2) : ℚ)⌉ = -201 := by
    (rw [Int.ceil_eq_iff]; norm_num)
  refine ⟨?_, ?_, ?_, by decide⟩
  · rw [hrun]
    norm_num [demo_success_state, limits_homing_finalize, homingPassInitState,
      limits_set_machine_positions, demo_settings, lroundQ, hc1]
  · norm_num [demo_settings, lroundQ, hc2]
  · norm_num [demo_settings, lroundQ, hc3]
